import Mathlib

/-!
Verification development for the markschecker search service.

The Python source (src/app/search_service.py, src/app/routes.py, src/app/db.py)
is shallowly embedded below.  JSON values are modelled by the inductive `Json`;
Python dictionaries are association lists with first-key-wins lookup; Python
`None` is `Json.null`; code that can raise an uncaught exception is modelled in
`Except Unit`; float arithmetic is modelled over `ℚ` (all payload literals in
the claims are exact decimals).  Network calls are external effects: an HTTP
response is a value of `HttpResult` handed to the embedded function, and the
per-term fetch outcome in the batch processor is an oracle argument.
-/

/-- A JSON value, as produced by `response.json()` in the source.  Numbers are
modelled as rationals. -/
inductive Json where
  | null : Json
  | bool : Bool → Json
  | num : ℚ → Json
  | str : String → Json
  | arr : List Json → Json
  | obj : List (String × Json) → Json

/-- Python truthiness (`if x:`) for a JSON value: `None`, `False`, `0`, `""`,
`[]`, `{}` are falsy, everything else truthy. -/
def pyTruthy : Json → Bool
  | .null => false
  | .bool b => b
  | .num q => if q = 0 then false else true
  | .str s => if s = "" then false else true
  | .arr l => !l.isEmpty
  | .obj l => !l.isEmpty

/-- First-binding lookup in an association list, with a default: models
`d.get(key, default)` on a Python dict. -/
def lookupD : List (String × Json) → String → Json → Json
  | [], _, d => d
  | (k, v) :: rest, key, d => if k = key then v else lookupD rest key d

/-- Models `d.get(key)` on a Python dict: absent keys give `None`. -/
def lookupNull (kvs : List (String × Json)) (key : String) : Json :=
  lookupD kvs key Json.null

/-- Models `x.get(key)` where `x` may not be a dict: a non-dict receiver
raises `AttributeError` (the `.error` case). -/
def getAttr : Json → String → Except Unit Json
  | .obj kvs, key => .ok (lookupNull kvs key)
  | _, _ => .error ()

/-- Models `x.get(key, default)` where `x` may not be a dict. -/
def getAttrD : Json → String → Json → Except Unit Json
  | .obj kvs, key, d => .ok (lookupD kvs key d)
  | _, _, _ => .error ()

/-- Models Python `x or d` on JSON values (value-preserving short-circuit). -/
def pyOr (j d : Json) : Json :=
  if pyTruthy j then j else d

/-- Decimal digits of an ASCII string folded into a natural number. -/
def digitsToNat (cs : List Char) : Nat :=
  cs.foldl (fun n c => n * 10 + (c.toNat - '0'.toNat)) 0

/-- Python whitespace characters (the ASCII part of `str.strip` / regex `\s`). -/
def pySpaceChar (c : Char) : Bool :=
  c = ' ' || c = '\t' || c = '\n' || c = '\r' || c = '\x0b' || c = '\x0c'

/-- Models `str.strip()` (whitespace from both ends). -/
def pyStrip (cs : List Char) : List Char :=
  ((cs.dropWhile pySpaceChar).reverse.dropWhile pySpaceChar).reverse

/-- Parses an unsigned decimal, optionally with a fractional part, as Python
`float()` does on simple numeric strings (exponents and special forms are not
needed by any claim and are treated as parse failures). -/
def parseUnsignedFloat (cs : List Char) : Option ℚ :=
  let intPart := cs.takeWhile Char.isDigit
  let rest := cs.dropWhile Char.isDigit
  match rest with
  | [] => if intPart.isEmpty then none else some (digitsToNat intPart : ℚ)
  | '.' :: frac =>
      let fr := frac.takeWhile Char.isDigit
      let rest2 := frac.dropWhile Char.isDigit
      if !rest2.isEmpty then none
      else if intPart.isEmpty && fr.isEmpty then none
      else some ((digitsToNat intPart : ℚ) + (digitsToNat fr : ℚ) / (10 ^ fr.length))
  | _ => none

/-- Models Python `float(s)` on a string (sign and simple decimals). -/
def parseFloatStr (s : String) : Except Unit ℚ :=
  match pyStrip s.data with
  | '-' :: rest => match parseUnsignedFloat rest with
      | some q => .ok (-q)
      | none => .error ()
  | '+' :: rest => match parseUnsignedFloat rest with
      | some q => .ok q
      | none => .error ()
  | cs => match parseUnsignedFloat cs with
      | some q => .ok q
      | none => .error ()

/-- Models Python `float(x)` on a JSON value: numbers and booleans convert,
numeric strings parse, everything else raises (`TypeError`/`ValueError`). -/
def pyFloat : Json → Except Unit ℚ
  | .num q => .ok q
  | .bool b => .ok (if b then 1 else 0)
  | .str s => parseFloatStr s
  | _ => .error ()

/-- Python `round()` on an exact rational: round half to even, as used for
`discountPercentage`. -/
def pyRound (q : ℚ) : Int :=
  let f := q.floor
  let r := q - f
  if r < 1 / 2 then f
  else if 1 / 2 < r then f + 1
  else if f % 2 = 0 then f else f + 1

/-- Models `needle in hay`: drops `needle` from the front of `hay` if it is a
prefix, returning the remainder. -/
def dropPrefixOpt : List Char → List Char → Option (List Char)
  | [], hay => some hay
  | _ :: _, [] => none
  | n :: ns, h :: hs => if n = h then dropPrefixOpt ns hs else none

/-- Substring containment on character lists (Python `needle in hay`). -/
def containsSub : List Char → List Char → Bool
  | [], needle => needle.isEmpty
  | c :: rest, needle => (dropPrefixOpt needle (c :: rest)).isSome || containsSub rest needle

/-- Substring containment on strings (Python `needle in hay`). -/
def containsStr (hay needle : String) : Bool :=
  containsSub hay.data needle.data

/-! ### Term Normalizer (`SearchService.parse_terms`) -/

/-- A separator for `re.split(r"[,\s]+", ...)`: a comma or whitespace. -/
def sepChar (c : Char) : Bool :=
  c = ',' || pySpaceChar c

/-- Splits a character list into the maximal runs of non-separator characters,
accumulating the current fragment in reverse.  Together with `pyStrip` this
models `filter(None, re.split(r"[,\s]+", raw.strip()))`: empty fragments are
dropped and no fragment contains a separator, so the per-part `strip` in the
source is the identity. -/
def splitRunsAux : List Char → List Char → List (List Char)
  | [], acc => if acc.isEmpty then [] else [acc.reverse]
  | c :: rest, acc =>
      if sepChar c then
        if acc.isEmpty then splitRunsAux rest [] else acc.reverse :: splitRunsAux rest []
      else splitRunsAux rest (c :: acc)

/-- The non-empty tokens of the raw input, in order. -/
def pyTokens (raw : String) : List String :=
  (splitRunsAux (pyStrip raw.data) []).map (fun cs => ⟨cs⟩)

/-- Case-insensitive check that a token ends with the literal suffix `EA`
(`normalized.upper().endswith("EA")`). -/
def endsWithEA (t : String) : Bool :=
  match t.data.reverse with
  | a :: e :: _ => a.toUpper = 'A' && e.toUpper = 'E'
  | _ => false

/-- The accumulation loop of `parse_terms`: first occurrence of a token goes to
`terms` (and into the `seen` set), later occurrences go to `duplicates`; the
special-code flag is set by any token with suffix `EA`. -/
def parseLoop : List String → List String → List String → List String → Bool →
    List String × List String × Bool
  | [], terms, dups, _, ea => (terms, dups, ea)
  | t :: rest, terms, dups, seen, ea =>
      let ea2 := ea || endsWithEA t
      if t ∈ seen then parseLoop rest terms (dups ++ [t]) seen ea2
      else parseLoop rest (terms ++ [t]) dups (seen ++ [t]) ea2

/-- `SearchService.parse_terms`: returns
`(terms, duplicates, duplicateCount, containsSpecialCodeSuffix)`. -/
def parse_terms (raw : String) : List String × List String × Nat × Bool :=
  let r := parseLoop (pyTokens raw) [] [] [] false
  (r.1, r.2.1, r.2.1.length, r.2.2)

/-! ### Region Resolver (`SearchService.get_region_info` and helpers) -/

/-- The outcome of one outbound HTTP request, as observed by the caller of
`requests.get`: a timeout, another transport exception (with its message), or
a response carrying a status code, the body text, and the result of
`response.json()` (`none` when the body is not parseable JSON). -/
inductive HttpResult where
  | timeout : HttpResult
  | transportError (msg : String) : HttpResult
  | ok (status : Nat) (body : String) (json : Option Json) : HttpResult

/-- The region dictionary built by the resolver.  Field values are raw JSON
values exactly as the source stores them (`None` is `Json.null`). -/
structure RegionInfo where
  regionId : Json
  nickname : Json
  displayAddress : Json
  postalCode : Json

/-- `SearchService._region_error`. -/
def region_error (nickname message : String) : RegionInfo :=
  { regionId := Json.null, nickname := Json.str nickname,
    displayAddress := Json.str message, postalCode := Json.null }

/-- The all-`None` region dictionary returned by `_extract_region` for a
non-dict payload. -/
def default_region : RegionInfo :=
  { regionId := Json.null, nickname := Json.null,
    displayAddress := Json.null, postalCode := Json.null }

/-- Models the f-string rendering of a JSON value, used to synthesize the
nickname `"Region " ++ regionId`.  Strings, integers and booleans render as
in Python; the container cases are coarse approximations that no claim
depends on. -/
def pyStr : Json → String
  | .str s => s
  | .num q => if q.den = 1 then toString q.num else toString q
  | .bool b => if b then "True" else "False"
  | .null => "None"
  | .arr _ => "[...]"
  | .obj _ => "dict"

/-- Models Python slicing `s[:n]`. -/
def strTrunc (n : Nat) (s : String) : String :=
  ⟨s.data.take n⟩

/-- A character of the regex class `[0-9a-fA-F-]` used for the salvaged
`regionId` value. -/
def hexDashChar (c : Char) : Bool :=
  c.isDigit || ('a' ≤ c && c ≤ 'f') || ('A' ≤ c && c ≤ 'F') || c = '-'

/-- Matches the continuation of `"regionId"\s*:\s*"?([0-9a-fA-F-]+)"?` right
after the key literal, returning the captured value.  The greedy optional
quote is safe to commit to because the value class excludes the quote. -/
def matchRegionIdAt (cs : List Char) : Option (List Char) :=
  match cs.dropWhile pySpaceChar with
  | ':' :: cs2 =>
      let cs3 := cs2.dropWhile pySpaceChar
      let cs4 := match cs3 with
        | '"' :: r => r
        | _ => cs3
      let run := cs4.takeWhile hexDashChar
      if run.isEmpty then none else some run
  | _ => none

/-- The key literal `"regionId"` (quotes included) of the salvage pattern. -/
def regionIdKey : List Char := "\"regionId\"".data

/-- `re.search` for the `regionId` salvage pattern: the leftmost occurrence of
the key literal whose continuation matches yields the captured value. -/
def searchRegionId : List Char → Option String
  | [] => none
  | c :: rest =>
      match dropPrefixOpt regionIdKey (c :: rest) with
      | some rem =>
          match matchRegionIdAt rem with
          | some run => some ⟨run⟩
          | none => searchRegionId rest
      | none => searchRegionId rest

/-- Body of the capture `([^"\\]*(?:\\.[^"\\]*)*)` followed by a closing quote:
plain characters and backslash escapes are accumulated verbatim until an
unescaped quote; a dangling backslash or missing close fails. -/
def scanQuoted : List Char → List Char → Option (List Char)
  | [], _ => none
  | '"' :: _, acc => some acc.reverse
  | '\\' :: d :: rest, acc => scanQuoted rest (d :: '\\' :: acc)
  | ['\\'], _ => none
  | c :: rest, acc => scanQuoted rest (c :: acc)

/-- Matches the continuation `\s*:\s*"(capture)"` after a quoted key literal. -/
def matchQuotedAt (cs : List Char) : Option (List Char) :=
  match cs.dropWhile pySpaceChar with
  | ':' :: cs2 =>
      match cs2.dropWhile pySpaceChar with
      | '"' :: r => scanQuoted r []
      | _ => none
  | _ => none

/-- `re.search` for one of the quoted-value salvage patterns
(`"nickname"`, `"displayAddress"`, `"postalCode"`). -/
def searchQuoted (key : List Char) : List Char → Option String
  | [] => none
  | c :: rest =>
      match dropPrefixOpt key (c :: rest) with
      | some rem =>
          match matchQuotedAt rem with
          | some run => some ⟨run⟩
          | none => searchQuoted key rest
      | none => searchQuoted key rest

/-- Option-to-JSON coercion for the dictionary literals of the source
(`None` becomes `Json.null`). -/
def optStrJson : Option String → Json
  | some s => Json.str s
  | none => Json.null

/-- `SearchService._fallback_region`: regex salvage of the raw body text. -/
def fallback_region (body : String) : RegionInfo :=
  let rid := searchRegionId body.data
  let nick0 := searchQuoted "\"nickname\"".data body.data
  let disp := searchQuoted "\"displayAddress\"".data body.data
  let post := searchQuoted "\"postalCode\"".data body.data
  let nick := match rid, nick0 with
    | some r, none => some ("Region " ++ r)
    | some r, some s => if s = "" then some ("Region " ++ r) else some s
    | none, n => n
  match rid with
  | some r =>
      { regionId := Json.str r, nickname := optStrJson nick,
        displayAddress := optStrJson disp, postalCode := optStrJson post }
  | none => region_error "Unknown" "Could not determine region"

/-- `SearchService._extract_region`: pulls `regionId` from the top level and
the address fields from the nested checkout-group path.  The chained
`.get(..., {}).get(...)` calls raise `AttributeError` when an intermediate
value is present but not a dict (including `null`), which is the `.error`
case. -/
def extract_region : Option Json → Except Unit RegionInfo
  | some (Json.obj kvs) =>
      let region_id := lookupNull kvs "regionId"
      match lookupD kvs "defaultCheckoutGroup" (Json.obj []) with
      | Json.obj g =>
          match lookupD g "delivery" (Json.obj []) with
          | Json.obj d =>
              let delivery := lookupD d "addressDetails" (Json.obj [])
              let nick := match delivery with
                | Json.obj a => lookupNull a "nickname"
                | _ => Json.null
              let disp := match delivery with
                | Json.obj a => lookupNull a "displayAddress"
                | _ => Json.null
              let post := match delivery with
                | Json.obj a => lookupNull a "postalCode"
                | _ => Json.null
              let nick2 :=
                if pyTruthy region_id && !(pyTruthy nick) then
                  Json.str ("Region " ++ pyStr region_id)
                else nick
              .ok { regionId := region_id, nickname := nick2,
                    displayAddress := disp, postalCode := post }
          | _ => .error ()
      | _ => .error ()
  | _ => .ok default_region

/-- `SearchService.get_region_info`, as a function of the cart-endpoint HTTP
outcome: timeout and transport errors yield error-encoding region values, a
non-200 status goes straight to regex salvage of the body, and a 200 response
is parsed and then salvaged if no truthy `regionId` was extracted. -/
def get_region_info : HttpResult → Except Unit RegionInfo
  | .timeout => .ok (region_error "Timeout" "API request timed out")
  | .transportError msg => .ok (region_error "Error" (strTrunc 80 msg))
  | .ok status body json =>
      if status ≠ 200 then .ok (fallback_region body)
      else do
        let region ← extract_region json
        if pyTruthy region.regionId then pure region
        else pure (fallback_region body)

/-! ### Product pipeline (`SearchService` fetch, extraction and batch) -/

/-- The canonical product record.  The source emits dicts whose key sets
differ between found and not-found records; absent keys are modelled as
`Json.null` (for raw-value fields), `none` (for `discountPercentage` and
`notFoundMessage`) and `[]` (for `offers`). -/
structure ProductRecord where
  found : Bool
  searchTerm : String
  productId : Json
  retailerProductId : Json
  name : Json
  brand : Json
  available : Json
  category : Json
  imageUrl : Json
  currentPrice : Json
  originalPrice : Json
  discountPercentage : Option Int
  unitPrice : Json
  unitLabel : Json
  currency : Json
  offers : List Json
  notFoundMessage : Option String

/-- The default not-found message template of `_not_found` (the `.format`
template naming the term). -/
def notFoundTemplate (term : String) : String :=
  "The article \"" ++ term ++ "\" was not found. It may not be published yet or could be a typo."

/-- The generic message attached when a per-term task raises. -/
def procErrMsg : String := "Error processing the article. Please try again."

/-- `SearchService._not_found`.  The message falls back to the template when
the argument is absent or falsy (`message or template`). -/
def not_found (term : String) (message : Option String) : ProductRecord :=
  { found := false, searchTerm := term, productId := Json.null,
    retailerProductId := Json.null,
    name := Json.str ("Article Not Found: " ++ term), brand := Json.null,
    available := Json.bool false, category := Json.null, imageUrl := Json.null,
    currentPrice := Json.null, originalPrice := Json.null,
    discountPercentage := none, unitPrice := Json.null, unitLabel := Json.null,
    currency := Json.null, offers := [],
    notFoundMessage := some (match message with
      | some m => if m = "" then notFoundTemplate term else m
      | none => notFoundTemplate term) }

/-- Models `float(x) if x is not None else None` inside the discount try
block: `None` stays `None`, other values go through `float`. -/
def pyFloatOptional : Json → Except Unit (Option ℚ)
  | .null => .ok none
  | j => (pyFloat j).map some

/-- The discount computation of `_extract_product_info`: the try block with
its `TypeError`/`ValueError` handler collapsed to `none`, and the truthiness
guard `op and op > cp` requiring a nonzero original price. -/
def discountCalc (curr orig : Json) : Option Int :=
  match pyFloatOptional curr with
  | .error _ => none
  | .ok cp =>
      match pyFloatOptional orig with
      | .error _ => none
      | .ok op =>
          match cp, op with
          | some c, some o =>
              if o ≠ 0 ∧ o > c then some (pyRound ((o - c) / o * 100)) else none
          | _, _ => none

/-- The field extraction of `SearchService._extract_product_info`, except for
`searchTerm` (filled by `extract_product_info`).  Each `.get` on a value that
may not be a dict is a fallible `getAttr`; in particular a truthy non-dict
`price` (or `unit`) value raises `AttributeError` exactly as the source
does. -/
def extract_fields (product : Json) : Except Unit ProductRecord := do
  let priceRaw ← getAttr product "price"
  let price_info := pyOr priceRaw (Json.obj [])
  let curRaw ← getAttr price_info "current"
  let current_block := pyOr curRaw (Json.obj [])
  let origRaw ← getAttr price_info "original"
  let original_block := pyOr origRaw (Json.obj [])
  let current_price := match current_block with
    | Json.obj kvs => lookupNull kvs "amount"
    | _ => Json.null
  let original_price := match original_block with
    | Json.obj kvs => lookupNull kvs "amount"
    | _ => Json.null
  let unitRaw ← getAttr price_info "unit"
  let unit_info := pyOr unitRaw (Json.obj [])
  let ucRaw ← getAttr unit_info "current"
  let unit_current := pyOr ucRaw (Json.obj [])
  let unit_price := match unit_current with
    | Json.obj kvs => lookupNull kvs "amount"
    | _ => Json.null
  let unit_label ← getAttr unit_info "label"
  let discount_pct := discountCalc current_price original_price
  let offersRaw ← getAttr product "offers"
  let offers := match offersRaw with
    | Json.arr l => l.take 5
    | _ => []
  let imageRaw ← getAttr product "image"
  let imageDirect ← getAttr product "imageUrl"
  let imageUrl := match imageRaw with
    | Json.obj kvs => lookupNull kvs "baseUrl"
    | _ => imageDirect
  let productId ← getAttr product "productId"
  let retailerProductId ← getAttr product "retailerProductId"
  let name ← getAttr product "name"
  let brand ← getAttr product "brand"
  let available ← getAttr product "available"
  let category ← getAttr product "categoryPath"
  let currency ← getAttrD product "currency" (Json.str "CAD")
  pure { found := true, searchTerm := "", productId := productId,
         retailerProductId := retailerProductId, name := name, brand := brand,
         available := available, category := category, imageUrl := imageUrl,
         currentPrice := current_price, originalPrice := original_price,
         discountPercentage := discount_pct, unitPrice := unit_price,
         unitLabel := unit_label, currency := currency, offers := offers,
         notFoundMessage := none }

/-- `SearchService._extract_product_info`: the extracted fields with the
originating term as `searchTerm`. -/
def extract_product_info (product : Json) (term : String) : Except Unit ProductRecord :=
  (extract_fields product).map (fun r => { r with searchTerm := term })

/-- The `limit` request parameter: a Python `int`, `str`, or another type. -/
inductive PyLimit where
  | intL (n : Int) : PyLimit
  | strL (s : String) : PyLimit
  | otherL : PyLimit

/-- All-digit parse used to model Python `int(s)`. -/
def parseDigitsNat (cs : List Char) : Option Nat :=
  if cs.isEmpty then none
  else if cs.all Char.isDigit then some (digitsToNat cs) else none

/-- Models Python `int(s)` on a string (sign, digits, surrounding spaces). -/
def pyParseInt (s : String) : Option Int :=
  match pyStrip s.data with
  | '-' :: rest => (parseDigitsNat rest).map (fun n => -(n : Int))
  | '+' :: rest => (parseDigitsNat rest).map (fun n => (n : Int))
  | cs => (parseDigitsNat cs).map (fun n => (n : Int))

/-- `max(1, min(n, 50))` on a Python int, as a result-list bound. -/
def clamp50 (n : Int) : Nat :=
  (max 1 (min n 50)).toNat

/-- `SearchService._resolve_limit`. -/
def resolve_limit : PyLimit → Nat
  | .intL n => clamp50 n
  | .strL s =>
      if s.toLower = "all" then 50
      else match pyParseInt s with
        | some n => clamp50 n
        | none => 10
  | .otherL => 10

/-- The empty-result payload returned by Tier 1 when the body carries no
product marker: an `entities.product` mapping with zero entries. -/
def emptyProductPayload : Json :=
  Json.obj [("entities", Json.obj [("product", Json.obj [])])]

/-- The product-identifier marker substring checked on the Tier-1 body. -/
def idMarker : String := "\"productId\""

/-- The alternate identifier marker substring checked on the Tier-1 body. -/
def ridMarker : String := "\"retailerProductId\""

/-- `SearchService._fetch_product_data` as a function of the Tier-1 HTTP
outcome.  The Tier-2 page scrape (`_product_payload_from_page`) and the
Tier-3 regex salvage (`_fallback_product_payload`) are the `tier2` value and
the `salvage` function: the theorem below shows which of them each Tier-1
outcome reaches. -/
def fetch_product_data (tier2 : Option Json) (salvage : String → Option Json) :
    HttpResult → Option Json
  | .timeout => none
  | .transportError _ => none
  | .ok status body json =>
      if status ≠ 200 then tier2
      else if !containsStr body idMarker && !containsStr body ridMarker then
        some emptyProductPayload
      else
        match json with
        | some j => some j
        | none => salvage body

/-- The extraction loop of `_process_term`: for each selected product id whose
entity is a dict, extract a record; a raising extraction aborts the whole
term task (list comprehensions propagate exceptions). -/
def collect_products (entities : List (String × Json)) (ids : List String)
    (term : String) : Except Unit (List ProductRecord) :=
  match ids with
  | [] => .ok []
  | pid :: rest =>
      match lookupNull entities pid with
      | Json.obj o =>
          match extract_product_info (Json.obj o) term with
          | .error e => .error e
          | .ok r =>
              match collect_products entities rest term with
              | .error e => .error e
              | .ok rs => .ok (r :: rs)
      | _ => collect_products entities rest term

/-- `SearchService._process_term`, as a function of the fetched payload
(`None` when all tiers failed).  Falsy payloads and missing or empty product
maps produce a single not-found record; a payload or `entities` value that is
not a dict makes the chained `.get` raise, which is the `.error` case. -/
def process_term (isArticle : Bool) (limit : PyLimit) (term : String) :
    Option Json → Except Unit (List ProductRecord × Nat)
  | none => .ok ([not_found term none], 0)
  | some j =>
      if !(pyTruthy j) then .ok ([not_found term none], 0)
      else
        match j with
        | Json.obj kvs =>
            match lookupD kvs "entities" (Json.obj []) with
            | Json.obj ekvs =>
                match lookupD ekvs "product" (Json.obj []) with
                | Json.obj prodKvs =>
                    if prodKvs.isEmpty then .ok ([not_found term none], 0)
                    else
                      match collect_products prodKvs
                          (if isArticle then (prodKvs.map Prod.fst).take 1
                           else (prodKvs.map Prod.fst).take (resolve_limit limit))
                          term with
                      | .error e => .error e
                      | .ok products =>
                          .ok (if products.isEmpty then
                                 ([not_found term none], prodKvs.length)
                               else (products, prodKvs.length))
                | _ => .ok ([not_found term none], 0)
            | _ => .error ()
        | _ => .error ()

/-- The outcome of one per-term worker task as seen by `process_chunk`: the
fetch either raised before producing a payload, or yielded a payload
(`none` meaning no usable data) that `_process_term` then processes. -/
inductive TaskOutcome where
  | raised : TaskOutcome
  | fetched (payload : Option Json) : TaskOutcome

/-- One worker task of `process_chunk`: any exception from the fetch or the
extraction surfaces as the `.error` case of the future result. -/
def run_task (oracle : String → TaskOutcome) (isArticle : Bool) (limit : PyLimit)
    (t : String) : Except Unit (List ProductRecord × Nat) :=
  match oracle t with
  | .raised => .error ()
  | .fetched p => process_term isArticle limit t p

/-- The result-collection loop of `SearchService.process_chunk` over the
futures in completion order: each completed future bumps `processed`, a
successful future extends the record list and the found count, and a raising
future contributes one generic not-found record. -/
def process_chunk_loop (oracle : String → TaskOutcome) (isArticle : Bool)
    (limit : PyLimit) : List String → List ProductRecord × Nat × Nat
  | [] => ([], 0, 0)
  | t :: rest =>
      let tail := process_chunk_loop oracle isArticle limit rest
      match run_task oracle isArticle limit t with
      | .ok (lst, n) => (lst ++ tail.1, n + tail.2.1, 1 + tail.2.2)
      | .error _ =>
          (not_found t (some procErrMsg) :: tail.1, tail.2.1, 1 + tail.2.2)

/-- `SearchService.process_chunk`: returns `(results, totalFound, processed)`.
The argument list is the completion order of the futures (one entry per
submitted term); an empty term list short-circuits to `([], 0, 0)` exactly as
the loop does. -/
def process_chunk (oracle : String → TaskOutcome) (searchType : String)
    (limit : PyLimit) (completionOrder : List String) :
    List ProductRecord × Nat × Nat :=
  process_chunk_loop oracle (searchType.toLower = "article") limit completionOrder

/-! ### Session rows (`src/app/db.py` and `src/app/routes.py`) -/

/-- The columns of a `sessions` row that the status claims depend on. -/
structure SessionRow where
  status : String
  total_terms : Nat
  processed_terms : Nat
  total_products : Nat
deriving DecidableEq

/-- `insert_session` (db.py): every new session row is stored with status
`"active"`, zero processed terms and zero products. -/
def insert_session (total_terms : Nat) : SessionRow :=
  { status := "active", total_terms := total_terms,
    processed_terms := 0, total_products := 0 }

/-- The progress update of `_process_chunk_logic` (routes.py): counters
advance and the status is recomputed as `"completed"` exactly when the new
processed count reaches a positive term total, `"processing"` otherwise. -/
def session_after_chunk (s : SessionRow) (processed products : Nat) : SessionRow :=
  let newP := s.processed_terms + processed
  let newT := s.total_products + products
  { status :=
      if s.total_terms ≤ newP ∧ 0 < s.total_terms then "completed" else "processing",
    total_terms := s.total_terms, processed_terms := newP, total_products := newT }

/-- A sequence of chunk updates applied to a session row. -/
def apply_chunks (s : SessionRow) (updates : List (Nat × Nat)) : SessionRow :=
  updates.foldl (fun acc u => session_after_chunk acc u.1 u.2) s

/-- A product entity whose price block carries the given current and original
amounts, used to state the discount claims against the real extractor. -/
def priceEntity (curr orig : Json) : Json :=
  Json.obj [("price", Json.obj
    [("current", Json.obj [("amount", curr)]),
     ("original", Json.obj [("amount", orig)])])]

/-! ### Theorems

Everything below is a theorem about the definitions above; the claim-level
statements carry the claim id in their doc comment. -/

/-- Each processed token is appended to exactly one of the two accumulated
lists, so occurrence counts are conserved by the loop. -/
theorem parseLoop_count (toks : List String) :
    ∀ (terms dups seen : List String) (ea : Bool) (x : String),
      ((parseLoop toks terms dups seen ea).1.count x) +
        ((parseLoop toks terms dups seen ea).2.1.count x) =
      terms.count x + dups.count x + toks.count x := by
  induction toks with
  | nil =>
      intro terms dups seen ea x
      simp [parseLoop]
  | cons t rest ih =>
      intro terms dups seen ea x
      by_cases h : t ∈ seen
      · simp only [parseLoop, if_pos h]
        rw [ih]
        simp only [List.count_append, List.count_cons, List.count_nil]
        split <;> omega
      · simp only [parseLoop, if_neg h]
        rw [ih]
        simp only [List.count_append, List.count_cons, List.count_nil]
        split <;> omega

/-- C9: for every raw input string, every occurrence of a non-empty token lands
in exactly one of the two output lists of `parse_terms` (occurrence counts in
`terms` and `duplicates` sum to the count among the input tokens, so no token
is dropped and none is double-counted), and the returned `duplicateCount`
equals the length of the `duplicates` list. -/
theorem parse_terms_partition (raw : String) (x : String) :
    ((parse_terms raw).1.count x) + ((parse_terms raw).2.1.count x) =
      (pyTokens raw).count x ∧
    (parse_terms raw).2.2.1 = (parse_terms raw).2.1.length := by
  refine ⟨?_, rfl⟩
  have h := parseLoop_count (pyTokens raw) [] [] [] false x
  simpa [parse_terms] using h

/-- C10 counterexample: on the input from the claim, the first component of
`parse_terms` is not `["SKU1", "SKU2"]` — the case-sensitively fresh token
`sku1` is appended to `terms`, not dropped. -/
theorem parse_terms_sku_counterexample :
    (parse_terms " SKU1, sku1, SKU2  SKU1").1 ≠ ["SKU1", "SKU2"] := by
  decide

/-- C10 (amended): `parse_terms " SKU1, sku1, SKU2  SKU1"` returns
`terms = ["SKU1", "sku1", "SKU2"]` (dedup is case-sensitive, so `sku1` is a new
term), `duplicates = ["SKU1"]`, `duplicateCount = 1`, and
`containsSpecialCodeSuffix = false`. -/
theorem parse_terms_sku_example :
    parse_terms " SKU1, sku1, SKU2  SKU1" =
      (["SKU1", "sku1", "SKU2"], ["SKU1"], 1, false) := by
  decide

/-- C8 counterexample: on the exact body from the claim the salvage regex does
not resolve `regionId = "R2"` — the value class `[0-9a-fA-F-]` rejects the
letter `R`, so the resolver returns the Unknown-region error value instead. -/
theorem fallback_region_R2_counterexample :
    fallback_region "\"regionId\":\"R2\",\"nickname\":\"Foo\"" =
      region_error "Unknown" "Could not determine region" ∧
    (region_error "Unknown" "Could not determine region").regionId = Json.null ∧
    (region_error "Unknown" "Could not determine region").nickname ≠ Json.str "Foo" := by
  refine ⟨rfl, rfl, ?_⟩
  intro h
  injection h with h2
  exact absurd h2 (by decide)

/-- C8 (amended): the salvage pattern accepts a quoted (or bare) hexadecimal
or hyphen value for `regionId`, not arbitrary alphanumerics; on a body whose
plain text contains a hexadecimal id, for example
`"regionId":"a2","nickname":"Foo"` inside an invalid JSON wrapper, the salvage
resolves `regionId = "a2"` and `nickname = "Foo"`. -/
theorem fallback_region_hex_salvage :
    fallback_region "xx \"regionId\":\"a2\",\"nickname\":\"Foo\"" =
      { regionId := Json.str "a2", nickname := Json.str "Foo",
        displayAddress := Json.null, postalCode := Json.null } := by
  rfl

/-- C7: the resolver does not satisfy the never-raises contract.  A 200
response whose parseable JSON body maps `defaultCheckoutGroup` to `null`
makes `_extract_region` call `.get` on `None` (an uncaught `AttributeError`,
the `.error` outcome).  The timeout and unresolvable cases do return the
claimed encoded values. -/
theorem get_region_info_code_bug :
    get_region_info
        (.ok 200 "ignored" (some (Json.obj [("defaultCheckoutGroup", Json.null)]))) =
      .error () ∧
    get_region_info .timeout =
      .ok (region_error "Timeout" "API request timed out") ∧
    get_region_info (.ok 502 "no region here" none) =
      .ok (region_error "Unknown" "Could not determine region") := by
  exact ⟨rfl, rfl, rfl⟩

/-- Dropping a list from the front of itself-plus-suffix leaves the suffix. -/
theorem dropPrefixOpt_append (m q : List Char) :
    dropPrefixOpt m (m ++ q) = some q := by
  induction m with
  | nil => rfl
  | cons c cs ih => simp [dropPrefixOpt, ih]

/-- A list occurring in the middle of a concatenation is found by the
substring scan. -/
theorem containsSub_mid (p m q : List Char) :
    containsSub (p ++ (m ++ q)) m = true := by
  induction p with
  | nil =>
      cases hmq : m ++ q with
      | nil =>
          rw [(List.append_eq_nil.mp hmq).1]
          rfl
      | cons c t =>
          simp only [List.nil_append, hmq, containsSub]
          rw [← hmq, dropPrefixOpt_append]
          simp
  | cons c prest ih =>
      have hstep : containsSub ((c :: prest) ++ (m ++ q)) m =
          ((dropPrefixOpt m ((c :: prest) ++ (m ++ q))).isSome ||
            containsSub (prest ++ (m ++ q)) m) := rfl
      rw [hstep, ih, Bool.or_true]

/-- String-level version of `containsSub_mid`. -/
theorem containsStr_mid (a m b : String) :
    containsStr (a ++ m ++ b) m = true := by
  unfold containsStr
  have hd : (a ++ m ++ b).data = a.data ++ (m.data ++ b.data) := by
    simp [String.data_append, List.append_assoc]
  rw [hd]
  exact containsSub_mid a.data m.data b.data

/-- C2: Tier-1 dispatch of the product fetch.  A timeout or transport error
returns `none` with no other tier consulted; a 200 body with neither marker
substring returns the explicit empty-result payload; a 200 body with a marker
but unparseable JSON goes to the Tier-3 salvage of that same body, and the
result never depends on the Tier-2 page scrape in these cases. -/
theorem fetch_product_data_tiers (tier2 tier2' : Option Json)
    (salvage : String → Option Json) (body : String) (json : Option Json)
    (msg : String) :
    fetch_product_data tier2 salvage .timeout = none ∧
    fetch_product_data tier2 salvage (.transportError msg) = none ∧
    (containsStr body idMarker = false → containsStr body ridMarker = false →
      fetch_product_data tier2 salvage (.ok 200 body json) =
        some emptyProductPayload) ∧
    (containsStr body idMarker = true ∨ containsStr body ridMarker = true →
      fetch_product_data tier2 salvage (.ok 200 body none) = salvage body ∧
      fetch_product_data tier2 salvage (.ok 200 body none) =
        fetch_product_data tier2' salvage (.ok 200 body none)) := by
  refine ⟨rfl, rfl, ?_, ?_⟩
  · intro h1 h2
    simp [fetch_product_data, h1, h2]
  · intro h
    have hcond : (!containsStr body idMarker && !containsStr body ridMarker) = false := by
      rcases h with h | h <;> simp [h]
    constructor <;> simp [fetch_product_data, hcond]

/-- C2 witness: concrete instances of the marker-free and the
unparseable-JSON cases. -/
theorem fetch_product_data_tiers_witness :
    fetch_product_data (some Json.null) (fun s => some (Json.str s))
        (.ok 200 "zz" none) = some emptyProductPayload ∧
    fetch_product_data (some Json.null) (fun s => some (Json.str s))
        (.ok 200 "a \"productId\" b" none) = some (Json.str "a \"productId\" b") := by
  constructor
  · exact (fetch_product_data_tiers (some Json.null) none (fun s => some (Json.str s))
      "zz" none "m").2.2.1 (by decide) (by decide)
  · exact ((fetch_product_data_tiers (some Json.null) none (fun s => some (Json.str s))
      "a \"productId\" b" none "m").2.2.2 (Or.inl (by decide))).1

/-- C3 counterexample: a session created with zero terms is stored with
status `"active"` (`insert_session` writes `"active"` unconditionally), not
`"pending"` as the claim states. -/
theorem insert_session_zero_counterexample :
    (insert_session 0).status = "active" ∧ (insert_session 0).status ≠ "pending" := by
  exact ⟨rfl, by decide⟩

/-- A session whose stored term total is zero and whose status is not
`"completed"` never becomes `"completed"` under chunk updates. -/
theorem apply_chunks_zero_total (updates : List (Nat × Nat)) :
    ∀ s : SessionRow, s.total_terms = 0 → s.status ≠ "completed" →
      (apply_chunks s updates).status ≠ "completed" := by
  induction updates with
  | nil => intro s _ hs; exact hs
  | cons u rest ih =>
      intro s h0 hs
      have hstep : apply_chunks s (u :: rest) =
          apply_chunks (session_after_chunk s u.1 u.2) rest := rfl
      rw [hstep]
      apply ih
      · simp [session_after_chunk, h0]
      · simp [session_after_chunk, h0]

/-- C3 (amended): after a chunk update the stored status is `"completed"`
exactly when the cumulative processed count reaches a positive term total;
a session row is created with status `"active"` (not `"pending"`), and a
session created with zero terms never reaches `"completed"` under any
sequence of chunk updates. -/
theorem session_status_spec :
    (∀ (s : SessionRow) (p k : Nat),
        (session_after_chunk s p k).status = "completed" ↔
          (s.total_terms ≤ s.processed_terms + p ∧ 0 < s.total_terms)) ∧
    (∀ n : Nat, (insert_session n).status = "active") ∧
    (∀ updates : List (Nat × Nat),
        (apply_chunks (insert_session 0) updates).status ≠ "completed") := by
  refine ⟨?_, fun n => rfl, ?_⟩
  · intro s p k
    by_cases h : s.total_terms ≤ s.processed_terms + p ∧ 0 < s.total_terms
    · simp [session_after_chunk, h]
    · simp [session_after_chunk, h,
        show ("processing" : String) ≠ "completed" from by decide]
  · intro updates
    exact apply_chunks_zero_total updates (insert_session 0) rfl (by decide)

/-- C4 (amended): every not-found record has `found = false`, null identity
fields (`productId`, `retailerProductId`, `brand`, `category`, `imageUrl`),
`name = "Article Not Found: " ++ term` and `searchTerm = term`; the records
emitted without an override message (the zero-entity paths) carry the fixed
template message, which names the term.  Task-error records instead carry the
fixed generic retry message (see the counterexample). -/
theorem not_found_record_spec (term : String) (message : Option String) :
    (not_found term message).found = false ∧
    (not_found term message).productId = Json.null ∧
    (not_found term message).retailerProductId = Json.null ∧
    (not_found term message).brand = Json.null ∧
    (not_found term message).category = Json.null ∧
    (not_found term message).imageUrl = Json.null ∧
    (not_found term message).name = Json.str ("Article Not Found: " ++ term) ∧
    (not_found term message).searchTerm = term ∧
    (message = none →
      (not_found term message).notFoundMessage = some (notFoundTemplate term) ∧
      containsStr (notFoundTemplate term) term = true) := by
  refine ⟨rfl, rfl, rfl, rfl, rfl, rfl, rfl, rfl, ?_⟩
  rintro rfl
  refine ⟨rfl, ?_⟩
  exact containsStr_mid "The article \"" term
    "\" was not found. It may not be published yet or could be a typo."

/-- C4 witness: the amended record shape at a concrete term with no override
message. -/
theorem not_found_record_spec_witness :
    (not_found "W1" none).found = false ∧
    (not_found "W1" none).notFoundMessage = some (notFoundTemplate "W1") ∧
    containsStr (notFoundTemplate "W1") "W1" = true := by
  have h := not_found_record_spec "W1" none
  exact ⟨h.1, (h.2.2.2.2.2.2.2.2 rfl).1, (h.2.2.2.2.2.2.2.2 rfl).2⟩

/-- C4 counterexample: a raising per-term task makes the pipeline emit a
not-found record whose `notFoundMessage` is the fixed generic retry message,
which does not name the term — so not every pipeline-emitted not-found record
carries a message naming the term. -/
theorem not_found_message_counterexample :
    (process_chunk (fun _ => TaskOutcome.raised) "article" (PyLimit.strL "all")
        ["SKU1"]).1 = [not_found "SKU1" (some procErrMsg)] ∧
    (not_found "SKU1" (some procErrMsg)).notFoundMessage = some procErrMsg ∧
    containsStr procErrMsg "SKU1" = false := by
  refine ⟨rfl, rfl, by decide⟩

/-- A successful `pyFloat` conversion lifts through the optional wrapper. -/
theorem pyFloatOptional_of (j : Json) (c : ℚ) (h : pyFloat j = .ok c) :
    pyFloatOptional j = .ok (some c) := by
  cases j <;> simp_all [pyFloat, pyFloatOptional, Except.map]

/-- The discount try-block on two convertible prices: the formula applies
exactly when the original price is nonzero (truthy) and exceeds the current
price. -/
theorem discountCalc_eq (jc jo : Json) (c o : ℚ)
    (hc : pyFloat jc = .ok c) (ho : pyFloat jo = .ok o) :
    discountCalc jc jo =
      if o ≠ 0 ∧ o > c then some (pyRound ((o - c) / o * 100)) else none := by
  unfold discountCalc
  rw [pyFloatOptional_of jc c hc, pyFloatOptional_of jo o ho]

/-- C5 (amended): for a product whose price block carries two numerically
convertible amounts, the extracted `discountPercentage` is
`round(((original - current) / original) * 100)` when `original > current`
and `original ≠ 0`, and `null` otherwise — in particular a zero original
price yields `null` even when `original > current`. -/
theorem extract_discount_spec (jc jo : Json) (c o : ℚ) (term : String)
    (hc : pyFloat jc = .ok c) (ho : pyFloat jo = .ok o) :
    ∃ r : ProductRecord, extract_product_info (priceEntity jc jo) term = .ok r ∧
      r.discountPercentage =
        (if o ≠ 0 ∧ o > c then some (pyRound ((o - c) / o * 100)) else none) ∧
      r.searchTerm = term := by
  refine ⟨_, rfl, ?_, rfl⟩
  show discountCalc jc jo = _
  exact discountCalc_eq jc jo c o hc ho

/-- C5 witness: the specification example `current = 8, original = 10` gives
a 20 percent discount through the full extractor. -/
theorem extract_discount_spec_witness :
    (extract_product_info (priceEntity (Json.num 8) (Json.num 10)) "T").map
        ProductRecord.discountPercentage = .ok (some 20) := by
  obtain ⟨r, h1, h2, -⟩ :=
    extract_discount_spec (Json.num 8) (Json.num 10) 8 10 "T" rfl rfl
  rw [h1]
  show Except.ok r.discountPercentage = Except.ok (some 20)
  rw [h2, if_pos (by norm_num : ((10 : ℚ) ≠ 0 ∧ (10 : ℚ) > 8))]
  have harg : ((10 : ℚ) - 8) / 10 * 100 = 20 := by norm_num
  rw [harg]
  have h20 : pyRound 20 = 20 := by
    norm_num [pyRound, Rat.floor_def', Rat.num_ofNat, Rat.den_ofNat]
  rw [h20]

/-- C5 counterexample: with `current = -1` and `original = 0` both prices are
numeric and `original > current`, yet the code yields a `null` discount (the
truthiness guard skips the formula), where the claim prescribes the rounded
formula value. -/
theorem discount_formula_counterexample :
    pyFloat (Json.num (-1)) = .ok (-1) ∧ pyFloat (Json.num 0) = .ok 0 ∧
    ((0 : ℚ) > -1) ∧
    (extract_product_info (priceEntity (Json.num (-1)) (Json.num 0)) "T").map
        ProductRecord.discountPercentage = .ok none := by
  refine ⟨rfl, rfl, by norm_num, rfl⟩

/-- C6: payload extraction can raise on a dictionary-shaped product — a
truthy non-dict `price` value (here the string `"boom"`) makes
`price_info.get("current")` raise `AttributeError` instead of degrading to
null fields. -/
theorem extract_price_raises :
    extract_product_info (Json.obj [("price", Json.str "boom")]) "T1" =
      .error () := rfl

/-- The extractor stamps the originating term into `searchTerm`. -/
theorem extract_product_info_searchTerm (product : Json) (term : String)
    (r : ProductRecord) (h : extract_product_info product term = .ok r) :
    r.searchTerm = term := by
  unfold extract_product_info at h
  cases hf : extract_fields product with
  | error e =>
      rw [hf] at h
      exact Except.noConfusion h
  | ok v =>
      rw [hf] at h
      simp only [Except.map, Except.ok.injEq] at h
      subst h
      rfl

/-- Every record produced by the extraction loop carries the term. -/
theorem collect_products_searchTerm (entities : List (String × Json)) (term : String) :
    ∀ (ids : List String) (l : List ProductRecord),
      collect_products entities ids term = .ok l → ∀ r ∈ l, r.searchTerm = term := by
  intro ids
  induction ids with
  | nil =>
      intro l h r hr
      simp only [collect_products, Except.ok.injEq] at h
      subst h
      exact absurd hr (List.not_mem_nil r)
  | cons pid rest ih =>
      intro l h r hr
      simp only [collect_products] at h
      cases hl : lookupNull entities pid with
      | obj o =>
          simp only [hl] at h
          cases hx : extract_product_info (Json.obj o) term with
          | error e =>
              simp only [hx] at h
              exact Except.noConfusion h
          | ok r0 =>
              simp only [hx] at h
              cases hc : collect_products entities rest term with
              | error e =>
                  simp only [hc] at h
                  exact Except.noConfusion h
              | ok rs =>
                  simp only [hc, Except.ok.injEq] at h
                  subst h
                  rcases List.mem_cons.mp hr with h1 | h1
                  · subst h1
                    exact extract_product_info_searchTerm (Json.obj o) term r hx
                  · exact ih rs hc r h1
      | null =>
          simp only [hl] at h
          exact ih l h r hr
      | bool b =>
          simp only [hl] at h
          exact ih l h r hr
      | num q =>
          simp only [hl] at h
          exact ih l h r hr
      | str s =>
          simp only [hl] at h
          exact ih l h r hr
      | arr a =>
          simp only [hl] at h
          exact ih l h r hr

/-- A singleton not-found result satisfies the per-term output contract. -/
theorem singleton_not_found_spec (term : String) (m : Option String) :
    [not_found term m] ≠ [] ∧ ∀ r ∈ [not_found term m], r.searchTerm = term := by
  refine ⟨by simp, ?_⟩
  intro r hr
  rw [List.mem_singleton] at hr
  subst hr
  rfl

/-- Every successful per-term task yields a non-empty record list, all of
whose records carry the term. -/
theorem process_term_spec (isArticle : Bool) (limit : PyLimit) (term : String)
    (p : Option Json) (l : List ProductRecord) (n : Nat)
    (h : process_term isArticle limit term p = .ok (l, n)) :
    l ≠ [] ∧ ∀ r ∈ l, r.searchTerm = term := by
  cases p with
  | none =>
      simp only [process_term, Except.ok.injEq, Prod.mk.injEq] at h
      obtain ⟨h1, -⟩ := h
      subst h1
      exact singleton_not_found_spec term none
  | some j =>
      simp only [process_term] at h
      cases htr : pyTruthy j with
      | false =>
          simp only [htr, Bool.not_false, if_true, Except.ok.injEq, Prod.mk.injEq] at h
          obtain ⟨h1, -⟩ := h
          subst h1
          exact singleton_not_found_spec term none
      | true =>
          simp only [htr, Bool.not_true, if_false] at h
          cases j with
          | null => exact Except.noConfusion h
          | bool b => exact Except.noConfusion h
          | num q => exact Except.noConfusion h
          | str s => exact Except.noConfusion h
          | arr a => exact Except.noConfusion h
          | obj kvs =>
              cases he : lookupD kvs "entities" (Json.obj []) with
              | null => simp only [he] at h; exact Except.noConfusion h
              | bool b => simp only [he] at h; exact Except.noConfusion h
              | num q => simp only [he] at h; exact Except.noConfusion h
              | str s => simp only [he] at h; exact Except.noConfusion h
              | arr a => simp only [he] at h; exact Except.noConfusion h
              | obj ekvs =>
                  simp only [he] at h
                  cases hp : lookupD ekvs "product" (Json.obj []) with
                  | null =>
                      simp only [hp] at h
                      injection h with h2
                      injection h2 with h3 h4
                      subst h3
                      exact singleton_not_found_spec term none
                  | bool b =>
                      simp only [hp] at h
                      injection h with h2
                      injection h2 with h3 h4
                      subst h3
                      exact singleton_not_found_spec term none
                  | num q =>
                      simp only [hp] at h
                      injection h with h2
                      injection h2 with h3 h4
                      subst h3
                      exact singleton_not_found_spec term none
                  | str s =>
                      simp only [hp] at h
                      injection h with h2
                      injection h2 with h3 h4
                      subst h3
                      exact singleton_not_found_spec term none
                  | arr a =>
                      simp only [hp] at h
                      injection h with h2
                      injection h2 with h3 h4
                      subst h3
                      exact singleton_not_found_spec term none
                  | obj prodKvs =>
                      simp only [hp] at h
                      cases hemp : prodKvs.isEmpty with
                      | true =>
                          simp only [hemp] at h
                          injection h with h2
                          injection h2 with h3 h4
                          subst h3
                          exact singleton_not_found_spec term none
                      | false =>
                          simp only [hemp] at h
                          cases hc : collect_products prodKvs
                              (if isArticle then (prodKvs.map Prod.fst).take 1
                               else (prodKvs.map Prod.fst).take (resolve_limit limit))
                              term with
                          | error e =>
                              simp only [hc] at h
                              exact Except.noConfusion h
                          | ok products =>
                              simp only [hc] at h
                              cases hpe : products.isEmpty with
                              | true =>
                                  simp only [hpe] at h
                                  injection h with h2
                                  injection h2 with h3 h4
                                  subst h3
                                  exact singleton_not_found_spec term none
                              | false =>
                                  simp only [hpe] at h
                                  injection h with h2
                                  injection h2 with h3 h4
                                  subst h3
                                  refine ⟨?_, collect_products_searchTerm prodKvs term _ products hc⟩
                                  intro hnil
                                  rw [hnil] at hpe
                                  simp at hpe

/-- A task that completes successfully satisfies the per-term contract. -/
theorem run_task_spec (oracle : String → TaskOutcome) (isArticle : Bool)
    (limit : PyLimit) (t : String) (l : List ProductRecord) (n : Nat)
    (h : run_task oracle isArticle limit t = .ok (l, n)) :
    l ≠ [] ∧ ∀ r ∈ l, r.searchTerm = t := by
  unfold run_task at h
  cases ho : oracle t with
  | raised =>
      rw [ho] at h
      exact Except.noConfusion h
  | fetched p =>
      rw [ho] at h
      exact process_term_spec isArticle limit t p l n h

/-- The loop counts every completed future exactly once. -/
theorem process_chunk_loop_processed (oracle : String → TaskOutcome)
    (isArticle : Bool) (limit : PyLimit) :
    ∀ order : List String,
      (process_chunk_loop oracle isArticle limit order).2.2 = order.length := by
  intro order
  induction order with
  | nil => rfl
  | cons t rest ih =>
      simp only [process_chunk_loop]
      cases hrt : run_task oracle isArticle limit t with
      | error e =>
          simp only [hrt, ih, List.length_cons]
          omega
      | ok v =>
          obtain ⟨lst, n⟩ := v
          simp only [hrt, ih, List.length_cons]
          omega

/-- Every term in the processed order contributes at least one record that
carries it. -/
theorem process_chunk_loop_cover (oracle : String → TaskOutcome)
    (isArticle : Bool) (limit : PyLimit) :
    ∀ (order : List String) (t : String), t ∈ order →
      ∃ r ∈ (process_chunk_loop oracle isArticle limit order).1,
        r.searchTerm = t := by
  intro order
  induction order with
  | nil => intro t ht; exact absurd ht (List.not_mem_nil t)
  | cons u rest ih =>
      intro t ht
      simp only [process_chunk_loop]
      rcases List.mem_cons.mp ht with hh | hh
      · subst hh
        cases hrt : run_task oracle isArticle limit t with
        | error e =>
            refine ⟨not_found t (some procErrMsg), ?_, rfl⟩
            simp only [hrt]
            exact List.mem_cons_self _ _
        | ok v =>
            obtain ⟨lst, n⟩ := v
            obtain ⟨hne, hall⟩ := run_task_spec oracle isArticle limit t lst n hrt
            obtain ⟨r0, hr0⟩ := List.exists_mem_of_ne_nil lst hne
            refine ⟨r0, ?_, hall r0 hr0⟩
            simp only [hrt]
            exact List.mem_append_left _ hr0
      · obtain ⟨r, hr, hst⟩ := ih t hh
        cases hrt : run_task oracle isArticle limit u with
        | error e =>
            refine ⟨r, ?_, hst⟩
            simp only [hrt]
            exact List.mem_cons_of_mem _ hr
        | ok v =>
            obtain ⟨lst, n⟩ := v
            refine ⟨r, ?_, hst⟩
            simp only [hrt]
            exact List.mem_append_right _ hr

/-- C1: for every oracle of per-term task outcomes (raising or fetching any
payload), every search type and limit, and every completion order of the
submitted terms, `process_chunk` reports a `processed` count equal to the
number of input terms, and every input term contributes at least one record
(found or not-found) carrying it in `searchTerm`. -/
theorem process_chunk_complete (oracle : String → TaskOutcome)
    (searchType : String) (limit : PyLimit) (terms order : List String)
    (hperm : order.Perm terms) :
    (process_chunk oracle searchType limit order).2.2 = terms.length ∧
    ∀ t ∈ terms, ∃ r ∈ (process_chunk oracle searchType limit order).1,
      r.searchTerm = t := by
  constructor
  · rw [process_chunk, process_chunk_loop_processed, hperm.length_eq]
  · intro t ht
    exact process_chunk_loop_cover _ _ _ order t (hperm.mem_iff.mpr ht)

/-- C1 witness: a two-term batch, completed in reverse order with one task
raising, still reports two processed terms. -/
theorem process_chunk_complete_witness :
    (process_chunk (fun t => if t = "A" then TaskOutcome.raised else TaskOutcome.fetched none)
        "article" (PyLimit.strL "all") ["B", "A"]).2.2 = 2 :=
  (process_chunk_complete
    (fun t => if t = "A" then TaskOutcome.raised else TaskOutcome.fetched none)
    "article" (PyLimit.strL "all") ["A", "B"] ["B", "A"]
    (List.Perm.swap "A" "B" [])).1
